import Mathlib

/-
Verification of the Cloud Service Referee core pipeline.

Shallow embedding of the core modules of the repository:
  src/models.py, src/scoring_system.py, src/service_repository.py,
  src/constraint_evaluator.py, src/trade_off_analyzer.py,
  src/explanation_generator.py, src/comparison_engine.py

Python dicts that are built in a fixed insertion order are embedded as
association lists (List (key, value)) preserving that order; Python
exceptions are embedded as an error type PyErr carried by Except.
All text is ASCII; Python str.lower() is embedded as an ASCII lowering.
-/

set_option maxHeartbeats 4000000
set_option maxRecDepth 100000

/-! ### Data model (src/models.py) -/

inductive ConstraintLevel where
  | LOW
  | MEDIUM
  | HIGH
deriving DecidableEq, Fintype

/-- `ConstraintLevel.value`: the `.value` of the Python enum member. -/
def ConstraintLevel.value : ConstraintLevel → String
  | .LOW => "Low"
  | .MEDIUM => "Medium"
  | .HIGH => "High"

inductive ServiceType where
  | EC2
  | LAMBDA
  | ECS_FARGATE
deriving DecidableEq, Fintype

def ServiceType.value : ServiceType → String
  | .EC2 => "EC2"
  | .LAMBDA => "Lambda"
  | .ECS_FARGATE => "ECS_Fargate"

structure UserConstraints where
  budget_sensitivity : ConstraintLevel
  expected_traffic : ConstraintLevel
  scalability_requirement : ConstraintLevel
  latency_sensitivity : ConstraintLevel
  operational_overhead_tolerance : ConstraintLevel
  time_to_market_urgency : ConstraintLevel
deriving DecidableEq, Fintype

structure ServiceEvaluation where
  service_name : String
  constraint_scores : List (String × Nat)
  strengths : List String
  limitations : List String
  best_use_cases : List String
deriving DecidableEq

structure TradeOffAnalysis where
  cost_vs_control : String
  latency_vs_ops_complexity : String
  edge_case_warnings : List String
  conflicting_constraints : List String
deriving DecidableEq

structure ComparisonResult where
  evaluations : List (String × ServiceEvaluation)
  trade_off_analysis : TradeOffAnalysis
  contextual_recommendations : List (String × String)
  edge_case_warnings : List String
deriving DecidableEq

structure ServiceCharacteristics where
  name : String
  strengths : List String
  limitations : List String
  best_use_cases : List String
  cost_model : String
  scaling_characteristics : String
  operational_overhead : String
deriving DecidableEq

/-! ### Python exceptions

Embedding of the Python exception values the core raises. In the Python
exception hierarchy KeyError and IndexError are subclasses of LookupError,
while ValueError and RuntimeError are not. -/

inductive PyErr where
  | valueError (message : String)
  | runtimeError (message : String)
  | keyError (message : String)
deriving DecidableEq

/-- `str(e)` for the embedded exceptions: the carried message. -/
def PyErr.msg : PyErr → String
  | .valueError m => m
  | .runtimeError m => m
  | .keyError m => m

/-- The Python exception class name of the embedded exception. -/
def PyErr.kind : PyErr → String
  | .valueError _ => "ValueError"
  | .runtimeError _ => "RuntimeError"
  | .keyError _ => "KeyError"

/-- Whether the embedded exception is an instance of the Python LookupError
(KeyError and IndexError are; ValueError and RuntimeError are not). -/
def PyErr.isLookupError : PyErr → Bool
  | .keyError _ => true
  | _ => false

/-! ### Association-list lookup (Python dict read `d[k]` / `k in d`) -/

def lookupA {α : Type} : List (String × α) → String → Option α
  | [], _ => none
  | (k, v) :: rest, key => if key = k then some v else lookupA rest key

/-! ### String utilities

`joinSp` is Python's `' '.join(parts)`; `lowerL` is `text.lower()` (ASCII,
viewed as a character list); `containsLower text pat` is
`pat in text.lower()`. -/

def joinSp : List String → String
  | [] => ""
  | [s] => s
  | s :: rest => s ++ " " ++ joinSp rest

def lowerc (c : Char) : Char :=
  if 'A' ≤ c ∧ c ≤ 'Z' then Char.ofNat (c.toNat + 32) else c

def lowerL (s : String) : List Char := s.data.map lowerc

def containsLower (text pat : String) : Bool := decide (pat.data <:+: lowerL text)

/-! ### Scoring system (src/scoring_system.py) -/

/-- The scoring-rules table of `ScoringSystem`: constraint -> level -> service -> score. -/
def scoring_rules : List (String × List (String × List (String × Nat))) :=
  [ ("budget_sensitivity",
      [ ("Low", [("EC2", 4), ("Lambda", 3), ("ECS_Fargate", 2)])
      , ("Medium", [("EC2", 5), ("Lambda", 3), ("ECS_Fargate", 2)])
      , ("High", [("EC2", 5), ("Lambda", 2), ("ECS_Fargate", 1)]) ])
  , ("expected_traffic",
      [ ("Low", [("EC2", 2), ("Lambda", 5), ("ECS_Fargate", 3)])
      , ("Medium", [("EC2", 4), ("Lambda", 4), ("ECS_Fargate", 4)])
      , ("High", [("EC2", 5), ("Lambda", 3), ("ECS_Fargate", 4)]) ])
  , ("scalability_requirement",
      [ ("Low", [("EC2", 3), ("Lambda", 4), ("ECS_Fargate", 4)])
      , ("Medium", [("EC2", 4), ("Lambda", 5), ("ECS_Fargate", 5)])
      , ("High", [("EC2", 3), ("Lambda", 5), ("ECS_Fargate", 4)]) ])
  , ("latency_sensitivity",
      [ ("Low", [("EC2", 4), ("Lambda", 3), ("ECS_Fargate", 4)])
      , ("Medium", [("EC2", 5), ("Lambda", 3), ("ECS_Fargate", 4)])
      , ("High", [("EC2", 5), ("Lambda", 1), ("ECS_Fargate", 3)]) ])
  , ("operational_overhead_tolerance",
      [ ("Low", [("EC2", 1), ("Lambda", 5), ("ECS_Fargate", 4)])
      , ("Medium", [("EC2", 2), ("Lambda", 5), ("ECS_Fargate", 4)])
      , ("High", [("EC2", 4), ("Lambda", 4), ("ECS_Fargate", 3)]) ])
  , ("time_to_market_urgency",
      [ ("Low", [("EC2", 3), ("Lambda", 4), ("ECS_Fargate", 3)])
      , ("Medium", [("EC2", 2), ("Lambda", 5), ("ECS_Fargate", 4)])
      , ("High", [("EC2", 1), ("Lambda", 5), ("ECS_Fargate", 3)]) ])
  ]

/-- `ScoringSystem.score_service_against_constraint`. -/
def score_service_against_constraint (service constraint value : String) :
    Except PyErr Nat :=
  match lookupA scoring_rules constraint with
  | none => .error (.valueError ("Unknown constraint: " ++ constraint))
  | some byLevel =>
    match lookupA byLevel value with
    | none => .error (.valueError ("Unknown constraint value: " ++ value))
    | some byService =>
      match lookupA byService service with
      | none => .error (.valueError ("Unknown service: " ++ service))
      | some score =>
        if 1 ≤ score ∧ score ≤ 5 then .ok score
        else .error (.valueError ("Invalid score " ++ toString score ++ " for " ++
          service ++ " on " ++ constraint ++ "=" ++ value))

/-- The `constraint_mapping` dict built inside `ScoringSystem.get_all_scores`. -/
def constraint_mapping (c : UserConstraints) : List (String × String) :=
  [ ("budget_sensitivity", c.budget_sensitivity.value)
  , ("expected_traffic", c.expected_traffic.value)
  , ("scalability_requirement", c.scalability_requirement.value)
  , ("latency_sensitivity", c.latency_sensitivity.value)
  , ("operational_overhead_tolerance", c.operational_overhead_tolerance.value)
  , ("time_to_market_urgency", c.time_to_market_urgency.value)
  ]

/-- The loop body of `get_all_scores`: score each (constraint, value) pair in
order, propagating the first exception. -/
def scoreLoop (service : String) : List (String × String) → Except PyErr (List (String × Nat))
  | [] => .ok []
  | (name, val) :: rest =>
    match score_service_against_constraint service name val with
    | .error e => .error e
    | .ok s =>
      match scoreLoop service rest with
      | .error e => .error e
      | .ok tl => .ok ((name, s) :: tl)

/-- `ScoringSystem.get_all_scores`. -/
def get_all_scores (service : String) (c : UserConstraints) :
    Except PyErr (List (String × Nat)) :=
  scoreLoop service (constraint_mapping c)

/-! ### Service repository (src/service_repository.py) -/

def ec2_strengths : List String :=
  [ "Full control over infrastructure and OS"
  , "Cost optimization potential with reserved instances"
  , "Performance tuning capabilities"
  , "Support for specialized hardware (GPU, high-memory)"
  , "No vendor lock-in for application code"
  , "Mature ecosystem and tooling"
  ]

def ec2_limitations : List String :=
  [ "High operational overhead (patching, monitoring, scaling)"
  , "Slower provisioning and scaling compared to serverless"
  , "Requires infrastructure expertise"
  , "Manual capacity planning needed"
  , "Responsibility for security and maintenance"
  ]

def ec2_best_use_cases : List String :=
  [ "Legacy systems requiring specific OS configurations"
  , "Applications needing specialized hardware"
  , "Long-running, predictable workloads"
  , "Teams with strong infrastructure capabilities"
  , "Cost-sensitive applications with predictable usage"
  ]

def lambda_strengths : List String :=
  [ "Zero infrastructure management"
  , "Automatic scaling from zero to thousands"
  , "Pay only for actual execution time"
  , "Fast prototyping and development"
  , "Built-in high availability"
  , "Event-driven architecture support"
  ]

def lambda_limitations : List String :=
  [ "Cold start latency (100-800ms for most runtimes)"
  , "15-minute maximum execution time"
  , "Vendor lock-in with AWS-specific APIs"
  , "Cost can scale unpredictably with high usage"
  , "Limited runtime environment control"
  , "Debugging complexity in distributed systems"
  ]

def lambda_best_use_cases : List String :=
  [ "Event-driven processing (S3, DynamoDB triggers)"
  , "Low-traffic web APIs and microservices"
  , "Scheduled tasks and cron jobs"
  , "Rapid prototyping and MVPs"
  , "Teams wanting zero infrastructure management"
  ]

def fargate_strengths : List String :=
  [ "Container benefits without cluster management"
  , "Faster provisioning than EC2"
  , "No server management required"
  , "Good for microservices architecture"
  , "Integrated with AWS ecosystem"
  , "Predictable pricing model"
  ]

def fargate_limitations : List String :=
  [ "Higher per-unit cost than EC2"
  , "Limited runtime control compared to EC2"
  , "No support for spot instances"
  , "Less flexibility than self-managed containers"
  , "Still requires container expertise"
  , "Slower cold starts than Lambda"
  ]

def fargate_best_use_cases : List String :=
  [ "Containerized web applications"
  , "Microservices without Kubernetes complexity"
  , "Teams familiar with containers but not infrastructure"
  , "Applications requiring more control than Lambda"
  , "Batch processing jobs"
  ]

def ec2_characteristics : ServiceCharacteristics :=
  { name := "AWS EC2"
  , strengths := ec2_strengths
  , limitations := ec2_limitations
  , best_use_cases := ec2_best_use_cases
  , cost_model := "Pay for compute time, potential savings with reserved instances"
  , scaling_characteristics := "Manual or auto-scaling, slower response time"
  , operational_overhead := "High - full infrastructure management required"
  }

def lambda_characteristics : ServiceCharacteristics :=
  { name := "AWS Lambda"
  , strengths := lambda_strengths
  , limitations := lambda_limitations
  , best_use_cases := lambda_best_use_cases
  , cost_model := "Pay per request and execution time, can become expensive at scale"
  , scaling_characteristics := "Instant automatic scaling, handles traffic spikes well"
  , operational_overhead := "Very low - AWS manages all infrastructure"
  }

def fargate_characteristics : ServiceCharacteristics :=
  { name := "AWS ECS Fargate"
  , strengths := fargate_strengths
  , limitations := fargate_limitations
  , best_use_cases := fargate_best_use_cases
  , cost_model := "Pay for allocated CPU and memory, higher than EC2 per unit"
  , scaling_characteristics := "Automatic scaling, faster than EC2 but slower than Lambda"
  , operational_overhead := "Medium - container management without server management"
  }

/-- The services table of `ServiceRepository` (dict in insertion order). -/
def repository_services : List (String × ServiceCharacteristics) :=
  [ ("EC2", ec2_characteristics)
  , ("Lambda", lambda_characteristics)
  , ("ECS_Fargate", fargate_characteristics)
  ]

/-- `ServiceRepository.get_service_characteristics`. -/
def get_service_characteristics (service : String) : Except PyErr ServiceCharacteristics :=
  match lookupA repository_services service with
  | none => .error (.valueError ("Unknown service: " ++ service))
  | some ch => .ok ch

/-- `ServiceRepository.get_all_services` (`list(self._services.keys())`). -/
def get_all_services : List String := repository_services.map Prod.fst

/-! ### Constraint evaluator (src/constraint_evaluator.py) -/

/-- `ConstraintEvaluator.evaluate_single_service`. The Python `.copy()` on the
list-valued characteristics is the identity under value semantics. -/
def evaluate_single_service (service : String) (c : UserConstraints) :
    Except PyErr ServiceEvaluation :=
  match get_service_characteristics service with
  | .error e => .error e
  | .ok characteristics =>
    match get_all_scores service c with
    | .error e => .error e
    | .ok constraint_scores =>
      .ok { service_name := characteristics.name
          , constraint_scores := constraint_scores
          , strengths := characteristics.strengths
          , limitations := characteristics.limitations
          , best_use_cases := characteristics.best_use_cases
          }

/-- The loop of `ConstraintEvaluator.evaluate_services`, building the
evaluations dict in service order, propagating the first exception. -/
def evalLoop (services : List String) (c : UserConstraints) :
    Except PyErr (List (String × ServiceEvaluation)) :=
  match services with
  | [] => .ok []
  | s :: rest =>
    match evaluate_single_service s c with
    | .error e => .error e
    | .ok ev =>
      match evalLoop rest c with
      | .error e => .error e
      | .ok tl => .ok ((s, ev) :: tl)

/-- `ConstraintEvaluator.evaluate_services`. -/
def evaluate_services (c : UserConstraints) :
    Except PyErr (List (String × ServiceEvaluation)) :=
  evalLoop get_all_services c

/-- The `all_text` string built in `validate_no_winner_declaration`:
`' '.join([name, ' '.join(strengths), ' '.join(limitations), ' '.join(best_use_cases)])`. -/
def evalAllText (e : ServiceEvaluation) : String :=
  joinSp [e.service_name, joinSp e.strengths, joinSp e.limitations, joinSp e.best_use_cases]

/-- The `winner_words` list in `ConstraintEvaluator.validate_no_winner_declaration`. -/
def winner_words : List String := ["best", "winner", "optimal", "perfect", "ideal choice"]

/-- `ConstraintEvaluator.validate_no_winner_declaration`: returns False as soon
as the lowered text of some evaluation contains a winner word, True otherwise. -/
def validate_no_winner_declaration (evaluations : List (String × ServiceEvaluation)) : Bool :=
  evaluations.all (fun p => winner_words.all (fun w => !(containsLower (evalAllText p.2) w)))

/-! ### Trade-off analyzer (src/trade_off_analyzer.py) -/

def analyzer_cost_ec2 : String :=
  "EC2 offers the highest level of infrastructure control but requires significant operational investment. This is a good choice when you need specialized hardware, custom OS configurations, or want to optimize costs through reserved instances. The trade-off here is between maximum flexibility and operational complexity."

def analyzer_cost_lambda_budget_high : String :=
  "Lambda eliminates infrastructure control in exchange for zero operational overhead. This may be a limitation if you need predictable costs at high scale, as Lambda pricing can become expensive with sustained high usage. This is a good choice when operational simplicity outweighs cost predictability."

def analyzer_cost_lambda_else : String :=
  "Lambda trades infrastructure control for operational simplicity. The trade-off here is between hands-off management and cost predictability at scale."

def analyzer_cost_fargate : String :=
  "ECS Fargate provides a middle ground, offering container-level control without server management. This may be a limitation if cost optimization is critical, as Fargate has higher per-unit costs than EC2. This is a good choice when you want container benefits without Kubernetes complexity."

/-- `TradeOffAnalyzer._analyze_cost_vs_control_trade_offs` (the `evaluations`
parameter is accepted but never read, as in the source). -/
def _analyze_cost_vs_control_trade_offs
    (_evaluations : List (String × ServiceEvaluation)) (c : UserConstraints) : String :=
  joinSp
    ([analyzer_cost_ec2] ++
     (if c.budget_sensitivity = .HIGH then [analyzer_cost_lambda_budget_high]
      else [analyzer_cost_lambda_else]) ++
     [analyzer_cost_fargate])

def analyzer_latency_high_ec2 : String :=
  "High latency sensitivity creates clear trade-offs between performance and operational complexity. EC2 provides the most consistent, low-latency performance but requires extensive operational management including monitoring, patching, and scaling configuration."

def analyzer_latency_high_lambda : String :=
  "Lambda\x27s cold start latency (100-800ms) may be a limitation if consistent low latency is required. The trade-off here is between zero operational overhead and performance predictability."

def analyzer_latency_high_fargate : String :=
  "ECS Fargate offers better latency than Lambda but with some operational complexity. This is a good choice when you need better performance than Lambda but less operational overhead than EC2."

def analyzer_latency_else : String :=
  "With moderate latency requirements, the trade-off shifts toward operational efficiency. Lambda\x27s occasional cold starts become acceptable in exchange for zero infrastructure management. The trade-off here is between perfect performance and operational simplicity."

/-- `TradeOffAnalyzer._analyze_latency_vs_ops_trade_offs` (the `evaluations`
parameter is accepted but never read, as in the source). -/
def _analyze_latency_vs_ops_trade_offs
    (_evaluations : List (String × ServiceEvaluation)) (c : UserConstraints) : String :=
  joinSp
    (if c.latency_sensitivity = .HIGH then
      [analyzer_latency_high_ec2, analyzer_latency_high_lambda, analyzer_latency_high_fargate]
     else [analyzer_latency_else])

def analyzer_warning_budget_scalability : String :=
  "Budget-scalability tension: High budget sensitivity with high scalability creates inherent conflict. The trade-off here is between cost control and scaling capabilities. This may be a limitation if both constraints are equally important."

def analyzer_warning_latency_traffic : String :=
  "Performance-scale challenge: High latency sensitivity with high traffic requires careful architecture. This is a good choice when consistent performance is critical, but may require significant infrastructure investment."

def analyzer_warning_time_ops : String :=
  "Speed-simplicity alignment: Fast time-to-market with low operational tolerance strongly favors serverless solutions. This is a good choice when rapid deployment is the priority, though it may limit long-term optimization options."

/-- `TradeOffAnalyzer._generate_edge_case_warnings`. -/
def _generate_edge_case_warnings (c : UserConstraints) : List String :=
  (if c.budget_sensitivity = .HIGH ∧ c.scalability_requirement = .HIGH then
    [analyzer_warning_budget_scalability] else []) ++
  (if c.latency_sensitivity = .HIGH ∧ c.expected_traffic = .HIGH then
    [analyzer_warning_latency_traffic] else []) ++
  (if c.time_to_market_urgency = .HIGH ∧ c.operational_overhead_tolerance = .LOW then
    [analyzer_warning_time_ops] else [])

/-- `TradeOffAnalyzer.identify_constraint_conflicts` (appends in source order:
budget/latency, budget/scalability, time/ops, traffic/budget). -/
def identify_constraint_conflicts (c : UserConstraints) : List String :=
  (if c.budget_sensitivity = .HIGH ∧ c.latency_sensitivity = .HIGH then
    ["Budget sensitivity vs Latency sensitivity"] else []) ++
  (if c.budget_sensitivity = .HIGH ∧ c.scalability_requirement = .HIGH then
    ["Budget sensitivity vs Scalability requirement"] else []) ++
  (if c.time_to_market_urgency = .HIGH ∧ c.operational_overhead_tolerance = .HIGH then
    ["Time-to-market urgency vs Operational overhead tolerance"] else []) ++
  (if c.expected_traffic = .HIGH ∧ c.budget_sensitivity = .HIGH then
    ["Expected traffic vs Budget sensitivity"] else [])

/-- `TradeOffAnalyzer.analyze_trade_offs`. -/
def analyze_trade_offs (evaluations : List (String × ServiceEvaluation))
    (c : UserConstraints) : TradeOffAnalysis :=
  { cost_vs_control := _analyze_cost_vs_control_trade_offs evaluations c
  , latency_vs_ops_complexity := _analyze_latency_vs_ops_trade_offs evaluations c
  , edge_case_warnings := _generate_edge_case_warnings c
  , conflicting_constraints := identify_constraint_conflicts c
  }

/-! ### Explanation generator (src/explanation_generator.py) -/

/-- `ExplanationGenerator.required_phrases`. -/
def required_phrases : List String :=
  ["This is a good choice when", "This may be a limitation if", "The trade-off here is"]

def ec2_budget_high : String :=
  "EC2 is a good choice when budget optimization is critical and you can commit to reserved instances or spot instances for significant cost savings."

def ec2_budget_medium : String :=
  "EC2 is a good choice when you want balanced cost control with the flexibility to optimize through instance types and pricing models."

def ec2_budget_low : String :=
  "EC2 is a good choice when cost is not the primary concern and you can prioritize performance and control over cost optimization."

def ec2_latency_high : String :=
  "This is a good choice when consistent, predictable performance is required without cold starts or provisioning delays."

def ec2_latency_medium : String :=
  "EC2 provides reliable performance for applications with moderate latency requirements."

def ec2_ops_high : String :=
  "EC2 is a good choice when your team has strong infrastructure expertise and wants maximum control over the runtime environment."

def ec2_ops_low : String :=
  "This may be a limitation if your team prefers hands-off infrastructure management or lacks expertise in server administration, monitoring, and scaling configuration."

def ec2_time_high : String :=
  "This may be a limitation if rapid deployment is critical, as EC2 requires more setup time and configuration compared to serverless options."

def ec2_time_medium : String :=
  "EC2 requires moderate setup time but provides long-term flexibility for evolving requirements."

def ec2_traffic_high : String :=
  "EC2 is a good choice when you have high, consistent traffic that can benefit from dedicated resources and cost optimization at scale."

def ec2_closing : String :=
  "The trade-off here is between maximum infrastructure control and operational complexity. EC2 provides the most flexibility but requires the highest operational investment."

def ec2_budget_block : ConstraintLevel → List String
  | .HIGH => [ec2_budget_high]
  | .MEDIUM => [ec2_budget_medium]
  | .LOW => [ec2_budget_low]

def ec2_latency_block : ConstraintLevel → List String
  | .HIGH => [ec2_latency_high]
  | .MEDIUM => [ec2_latency_medium]
  | .LOW => []

def ec2_ops_block : ConstraintLevel → List String
  | .HIGH => [ec2_ops_high]
  | .LOW => [ec2_ops_low]
  | .MEDIUM => []

def ec2_time_block : ConstraintLevel → List String
  | .HIGH => [ec2_time_high]
  | .MEDIUM => [ec2_time_medium]
  | .LOW => []

def ec2_traffic_block : ConstraintLevel → List String
  | .HIGH => [ec2_traffic_high]
  | _ => []

/-- The `parts` list built by `_generate_ec2_recommendation`, in source order:
budget, latency, operational overhead, time to market, traffic, closing. -/
def ec2Parts (c : UserConstraints) : List String :=
  ec2_budget_block c.budget_sensitivity ++
  ec2_latency_block c.latency_sensitivity ++
  ec2_ops_block c.operational_overhead_tolerance ++
  ec2_time_block c.time_to_market_urgency ++
  ec2_traffic_block c.expected_traffic ++
  [ec2_closing]

/-- `ExplanationGenerator._generate_ec2_recommendation` (the local `scores`
variable in the source is assigned and never read). -/
def _generate_ec2_recommendation (_evaluation : ServiceEvaluation)
    (c : UserConstraints) : String :=
  joinSp (ec2Parts c)

def lambda_ops_low : String :=
  "Lambda is a good choice when you want zero infrastructure management and can focus purely on business logic without server concerns."

def lambda_ops_medium : String :=
  "Lambda is a good choice when you prefer minimal operational overhead while maintaining some flexibility in your architecture."

def lambda_time_high : String :=
  "This is a good choice when rapid prototyping and deployment are priorities, allowing immediate focus on application development."

def lambda_time_medium : String :=
  "Lambda enables faster development cycles compared to traditional infrastructure approaches."

def lambda_traffic_low : String :=
  "Lambda is a good choice when traffic is low or highly variable, as you pay only for actual execution time with automatic scaling from zero."

def lambda_traffic_medium : String :=
  "Lambda handles moderate traffic well with automatic scaling, though costs should be monitored."

def lambda_traffic_high : String :=
  "Lambda can handle high traffic but cost implications should be carefully evaluated."

def lambda_latency_high : String :=
  "This may be a limitation if consistent low latency is critical, as Lambda cold starts can introduce 100-800ms delays for new execution environments."

def lambda_latency_medium : String :=
  "Lambda\x27s occasional cold starts may be acceptable for applications with moderate latency requirements."

def lambda_budget_high_traffic_high : String :=
  "This may be a limitation if you have sustained high traffic with tight budget constraints, as Lambda costs can become significant at scale."

def lambda_budget_high : String :=
  "Lambda can be cost-effective for variable workloads but requires monitoring to avoid unexpected costs."

def lambda_closing : String :=
  "The trade-off here is between operational simplicity and performance predictability. Lambda eliminates infrastructure concerns but introduces cold start latency and potential cost scaling challenges."

def lambda_ops_block : ConstraintLevel → List String
  | .LOW => [lambda_ops_low]
  | .MEDIUM => [lambda_ops_medium]
  | .HIGH => []

def lambda_time_block : ConstraintLevel → List String
  | .HIGH => [lambda_time_high]
  | .MEDIUM => [lambda_time_medium]
  | .LOW => []

def lambda_traffic_block : ConstraintLevel → List String
  | .LOW => [lambda_traffic_low]
  | .MEDIUM => [lambda_traffic_medium]
  | .HIGH => [lambda_traffic_high]

def lambda_latency_block : ConstraintLevel → List String
  | .HIGH => [lambda_latency_high]
  | .MEDIUM => [lambda_latency_medium]
  | .LOW => []

def lambda_budget_block (budget traffic : ConstraintLevel) : List String :=
  if budget = .HIGH ∧ traffic = .HIGH then [lambda_budget_high_traffic_high]
  else if budget = .HIGH then [lambda_budget_high]
  else []

/-- The `parts` list built by `_generate_lambda_recommendation`, in source
order: operational overhead, time to market, traffic, latency, budget, closing. -/
def lambdaParts (c : UserConstraints) : List String :=
  lambda_ops_block c.operational_overhead_tolerance ++
  lambda_time_block c.time_to_market_urgency ++
  lambda_traffic_block c.expected_traffic ++
  lambda_latency_block c.latency_sensitivity ++
  lambda_budget_block c.budget_sensitivity c.expected_traffic ++
  [lambda_closing]

/-- `ExplanationGenerator._generate_lambda_recommendation`. -/
def _generate_lambda_recommendation (_evaluation : ServiceEvaluation)
    (c : UserConstraints) : String :=
  joinSp (lambdaParts c)

def fargate_opening : String :=
  "ECS Fargate is a good choice when you want container benefits without managing Kubernetes clusters or EC2 instances, providing a middle ground between control and convenience."

def fargate_scalability_high : String :=
  "This is a good choice when you need automatic container scaling without the complexity of cluster management or the limitations of Lambda\x27s execution model."

def fargate_ops_time_medium : String :=
  "Fargate is a good choice when you want more control than Lambda but less operational overhead than EC2, especially for containerized microservices."

def fargate_budget_high : String :=
  "This may be a limitation if cost optimization is critical, as Fargate has higher per-unit costs than EC2 and doesn\x27t support spot instance pricing."

def fargate_ops_high : String :=
  "This may be a limitation if you want maximum infrastructure control or need custom OS configurations that aren\x27t available in the managed container environment."

def fargate_closing : String :=
  "The trade-off here is between container convenience and cost efficiency. Fargate simplifies container orchestration but at a premium compared to self-managed EC2 instances."

def fargate_scalability_block : ConstraintLevel → List String
  | .HIGH => [fargate_scalability_high]
  | _ => []

def fargate_ops_time_block (ops time : ConstraintLevel) : List String :=
  if ops = .MEDIUM ∧ time = .MEDIUM then [fargate_ops_time_medium] else []

def fargate_budget_block : ConstraintLevel → List String
  | .HIGH => [fargate_budget_high]
  | _ => []

def fargate_ops_block : ConstraintLevel → List String
  | .HIGH => [fargate_ops_high]
  | _ => []

/-- The `parts` list built by `_generate_fargate_recommendation`, in source
order: opening, scalability, ops+time, budget, ops, closing. -/
def fargateParts (c : UserConstraints) : List String :=
  [fargate_opening] ++
  fargate_scalability_block c.scalability_requirement ++
  fargate_ops_time_block c.operational_overhead_tolerance c.time_to_market_urgency ++
  fargate_budget_block c.budget_sensitivity ++
  fargate_ops_block c.operational_overhead_tolerance ++
  [fargate_closing]

/-- `ExplanationGenerator._generate_fargate_recommendation`. -/
def _generate_fargate_recommendation (_evaluation : ServiceEvaluation)
    (c : UserConstraints) : String :=
  joinSp (fargateParts c)

/-- `ExplanationGenerator.generate_contextual_recommendations`: iterate the
evaluations dict; keys other than the three fixed identifiers produce no
entry and no error. -/
def generate_contextual_recommendations
    (evaluations : List (String × ServiceEvaluation)) (c : UserConstraints) :
    List (String × String) :=
  match evaluations with
  | [] => []
  | (service_key, ev) :: rest =>
    if service_key = "EC2" then
      (service_key, _generate_ec2_recommendation ev c) ::
        generate_contextual_recommendations rest c
    else if service_key = "Lambda" then
      (service_key, _generate_lambda_recommendation ev c) ::
        generate_contextual_recommendations rest c
    else if service_key = "ECS_Fargate" then
      (service_key, _generate_fargate_recommendation ev c) ::
        generate_contextual_recommendations rest c
    else
      generate_contextual_recommendations rest c

/-! ### Comparison engine (src/comparison_engine.py) -/

def engine_warning_budget_scalability : String :=
  "Edge case detected: High budget sensitivity with high scalability requirements creates inherent tension. The trade-off here is between cost control and scaling capabilities."

def engine_warning_latency_traffic : String :=
  "Performance consideration: High latency sensitivity with high traffic requires careful service selection. This may be a limitation if cold starts or provisioning delays are not acceptable."

def engine_warning_time_ops : String :=
  "Constraint alignment: Fast time-to-market with low operational tolerance suggests serverless solutions. This is a good choice when rapid deployment is prioritized over infrastructure control."

def engine_warning_budget_latency : String :=
  "Trade-off consideration: High budget sensitivity with high latency sensitivity may require careful optimization. The trade-off here is between cost efficiency and performance guarantees."

/-- `ComparisonEngine._identify_edge_case_warnings` (compares `.value` strings,
as in the source; the `evaluations` parameter is accepted but never read). -/
def _identify_edge_case_warnings (c : UserConstraints)
    (_evaluations : List (String × ServiceEvaluation)) : List String :=
  (if c.budget_sensitivity.value = "High" ∧ c.scalability_requirement.value = "High" then
    [engine_warning_budget_scalability] else []) ++
  (if c.latency_sensitivity.value = "High" ∧ c.expected_traffic.value = "High" then
    [engine_warning_latency_traffic] else []) ++
  (if c.time_to_market_urgency.value = "High" ∧ c.operational_overhead_tolerance.value = "Low" then
    [engine_warning_time_ops] else []) ++
  (if c.budget_sensitivity.value = "High" ∧ c.latency_sensitivity.value = "High" then
    [engine_warning_budget_latency] else [])

/-- The `winner_phrases` list in `ComparisonEngine._validate_neutrality`. -/
def winner_phrases : List String := ["best choice", "optimal", "winner", "perfect solution"]

/-- The nested scan loop of `_validate_neutrality`: the first
(service, phrase) pair with `phrase in recommendation.lower()`, if any. -/
def findWinnerPhrase : List (String × String) → Option (String × String)
  | [] => none
  | (service, recommendation) :: rest =>
    match winner_phrases.find? (fun phrase => containsLower recommendation phrase) with
    | some phrase => some (service, phrase)
    | none => findWinnerPhrase rest

/-- `ComparisonEngine._validate_neutrality`, with the evaluator method
`validate_no_winner_declaration` injected as `vfn` (the engine calls it through
`self.constraint_evaluator`). Checks run in source order. -/
def _validate_neutrality (vfn : List (String × ServiceEvaluation) → Bool)
    (result : ComparisonResult) : Except PyErr Unit :=
  if vfn result.evaluations = false then
    .error (.valueError "Neutrality violation: A service was declared as winner")
  else if result.evaluations.length ≠ 3 then
    .error (.valueError ("Expected 3 services, got " ++ toString result.evaluations.length))
  else if result.contextual_recommendations.length ≠ 3 then
    .error (.valueError "Not all services have contextual recommendations")
  else
    match findWinnerPhrase result.contextual_recommendations with
    | some (service, phrase) =>
      .error (.valueError ("Winner language detected in " ++ service ++
        " recommendation: " ++ phrase))
    | none => .ok ()

/-- The dependencies injected into `ComparisonEngine.__init__`
(constraint evaluator, trade-off analyzer, explanation generator). -/
structure Components where
  evaluate_services : UserConstraints → Except PyErr (List (String × ServiceEvaluation))
  validate_no_winner_declaration : List (String × ServiceEvaluation) → Bool
  analyze_trade_offs : List (String × ServiceEvaluation) → UserConstraints → TradeOffAnalysis
  generate_contextual_recommendations :
    List (String × ServiceEvaluation) → UserConstraints → List (String × String)

/-- The body of the `try` block of `ComparisonEngine.compare_services`
(steps 1-6 in the source). -/
def compare_inner (eng : Components) (c : UserConstraints) : Except PyErr ComparisonResult :=
  match eng.evaluate_services c with
  | .error e => .error e
  | .ok evaluations =>
    let trade_off_analysis := eng.analyze_trade_offs evaluations c
    let contextual_recommendations := eng.generate_contextual_recommendations evaluations c
    let edge_case_warnings := _identify_edge_case_warnings c evaluations
    let result : ComparisonResult :=
      { evaluations := evaluations
      , trade_off_analysis := trade_off_analysis
      , contextual_recommendations := contextual_recommendations
      , edge_case_warnings := edge_case_warnings
      }
    match _validate_neutrality eng.validate_no_winner_declaration result with
    | .error e => .error e
    | .ok _ => .ok result

/-- `ComparisonEngine.compare_services`: any exception raised inside the try
block (including the neutrality ValueError) is caught by the blanket
`except Exception` and re-raised as `RuntimeError(f"Comparison engine failed: {str(e)}")`. -/
def compare_services (eng : Components) (c : UserConstraints) : Except PyErr ComparisonResult :=
  match compare_inner eng c with
  | .ok result => .ok result
  | .error e => .error (.runtimeError ("Comparison engine failed: " ++ e.msg))

/-- The engine as wired in the application: real evaluator, analyzer and
generator (app.py / test fixtures construct exactly this wiring). -/
def realComponents : Components :=
  { evaluate_services := evaluate_services
  , validate_no_winner_declaration := validate_no_winner_declaration
  , analyze_trade_offs := analyze_trade_offs
  , generate_contextual_recommendations := generate_contextual_recommendations
  }

/-! ### Closed-form model of the pipeline output, used to state and prove the
claims. Each per-dimension score function below is read off the scoring table. -/

def ec2_budget_score : ConstraintLevel → Nat
  | .LOW => 4 | .MEDIUM => 5 | .HIGH => 5

def ec2_traffic_score : ConstraintLevel → Nat
  | .LOW => 2 | .MEDIUM => 4 | .HIGH => 5

def ec2_scalability_score : ConstraintLevel → Nat
  | .LOW => 3 | .MEDIUM => 4 | .HIGH => 3

def ec2_latency_score : ConstraintLevel → Nat
  | .LOW => 4 | .MEDIUM => 5 | .HIGH => 5

def ec2_ops_score : ConstraintLevel → Nat
  | .LOW => 1 | .MEDIUM => 2 | .HIGH => 4

def ec2_time_score : ConstraintLevel → Nat
  | .LOW => 3 | .MEDIUM => 2 | .HIGH => 1

def lambda_budget_score : ConstraintLevel → Nat
  | .LOW => 3 | .MEDIUM => 3 | .HIGH => 2

def lambda_traffic_score : ConstraintLevel → Nat
  | .LOW => 5 | .MEDIUM => 4 | .HIGH => 3

def lambda_scalability_score : ConstraintLevel → Nat
  | .LOW => 4 | .MEDIUM => 5 | .HIGH => 5

def lambda_latency_score : ConstraintLevel → Nat
  | .LOW => 3 | .MEDIUM => 3 | .HIGH => 1

def lambda_ops_score : ConstraintLevel → Nat
  | .LOW => 5 | .MEDIUM => 5 | .HIGH => 4

def lambda_time_score : ConstraintLevel → Nat
  | .LOW => 4 | .MEDIUM => 5 | .HIGH => 5

def fargate_budget_score : ConstraintLevel → Nat
  | .LOW => 2 | .MEDIUM => 2 | .HIGH => 1

def fargate_traffic_score : ConstraintLevel → Nat
  | .LOW => 3 | .MEDIUM => 4 | .HIGH => 4

def fargate_scalability_score : ConstraintLevel → Nat
  | .LOW => 4 | .MEDIUM => 5 | .HIGH => 4

def fargate_latency_score : ConstraintLevel → Nat
  | .LOW => 4 | .MEDIUM => 4 | .HIGH => 3

def fargate_ops_score : ConstraintLevel → Nat
  | .LOW => 4 | .MEDIUM => 4 | .HIGH => 3

def fargate_time_score : ConstraintLevel → Nat
  | .LOW => 3 | .MEDIUM => 4 | .HIGH => 3

def ec2Scores (c : UserConstraints) : List (String × Nat) :=
  [ ("budget_sensitivity", ec2_budget_score c.budget_sensitivity)
  , ("expected_traffic", ec2_traffic_score c.expected_traffic)
  , ("scalability_requirement", ec2_scalability_score c.scalability_requirement)
  , ("latency_sensitivity", ec2_latency_score c.latency_sensitivity)
  , ("operational_overhead_tolerance", ec2_ops_score c.operational_overhead_tolerance)
  , ("time_to_market_urgency", ec2_time_score c.time_to_market_urgency)
  ]

def lambdaScores (c : UserConstraints) : List (String × Nat) :=
  [ ("budget_sensitivity", lambda_budget_score c.budget_sensitivity)
  , ("expected_traffic", lambda_traffic_score c.expected_traffic)
  , ("scalability_requirement", lambda_scalability_score c.scalability_requirement)
  , ("latency_sensitivity", lambda_latency_score c.latency_sensitivity)
  , ("operational_overhead_tolerance", lambda_ops_score c.operational_overhead_tolerance)
  , ("time_to_market_urgency", lambda_time_score c.time_to_market_urgency)
  ]

def fargateScores (c : UserConstraints) : List (String × Nat) :=
  [ ("budget_sensitivity", fargate_budget_score c.budget_sensitivity)
  , ("expected_traffic", fargate_traffic_score c.expected_traffic)
  , ("scalability_requirement", fargate_scalability_score c.scalability_requirement)
  , ("latency_sensitivity", fargate_latency_score c.latency_sensitivity)
  , ("operational_overhead_tolerance", fargate_ops_score c.operational_overhead_tolerance)
  , ("time_to_market_urgency", fargate_time_score c.time_to_market_urgency)
  ]

def ec2Evaluation (c : UserConstraints) : ServiceEvaluation :=
  { service_name := "AWS EC2"
  , constraint_scores := ec2Scores c
  , strengths := ec2_strengths
  , limitations := ec2_limitations
  , best_use_cases := ec2_best_use_cases
  }

def lambdaEvaluation (c : UserConstraints) : ServiceEvaluation :=
  { service_name := "AWS Lambda"
  , constraint_scores := lambdaScores c
  , strengths := lambda_strengths
  , limitations := lambda_limitations
  , best_use_cases := lambda_best_use_cases
  }

def fargateEvaluation (c : UserConstraints) : ServiceEvaluation :=
  { service_name := "AWS ECS Fargate"
  , constraint_scores := fargateScores c
  , strengths := fargate_strengths
  , limitations := fargate_limitations
  , best_use_cases := fargate_best_use_cases
  }

def evalsList (c : UserConstraints) : List (String × ServiceEvaluation) :=
  [ ("EC2", ec2Evaluation c)
  , ("Lambda", lambdaEvaluation c)
  , ("ECS_Fargate", fargateEvaluation c)
  ]

def resultModel (c : UserConstraints) : ComparisonResult :=
  { evaluations := evalsList c
  , trade_off_analysis := analyze_trade_offs (evalsList c) c
  , contextual_recommendations := generate_contextual_recommendations (evalsList c) c
  , edge_case_warnings := _identify_edge_case_warnings c (evalsList c)
  }

/-! ### The forbidden-term scan of claim C1, and the cleanliness predicate the
structural proof rests on. -/

/-- The forbidden winner terms listed by the neutrality invariant of the spec. -/
def claimTerms : List String :=
  ["best choice", "best", "winner", "optimal", "perfect", "perfect solution", "ideal choice"]

/-- Space-free proxy words: every forbidden term contains one of these, so a
text free of all proxy words is free of all forbidden terms. -/
def baseWords : List String := ["best", "winner", "optimal", "perfect", "ideal"]

/-- A sentence fragment is clean when its lowering contains no proxy word. -/
def cleanFrag (s : String) : Bool := baseWords.all (fun w => !(containsLower s w))

/-- One output string passes the case-insensitive forbidden-term scan of claim C1. -/
def stringScanOK (s : String) : Bool := claimTerms.all (fun t => !(containsLower s t))

/-- The strings of one evaluation the claim scans: service name, strengths,
limitations, best use cases. -/
def evalStrings (e : ServiceEvaluation) : List String :=
  e.service_name :: (e.strengths ++ e.limitations ++ e.best_use_cases)

/-- The whole-result scan of claim C1: every evaluation text and every
recommendation is free of every forbidden term. -/
def resultScanOK (r : ComparisonResult) : Bool :=
  r.evaluations.all (fun p => (evalStrings p.2).all stringScanOK) &&
  r.contextual_recommendations.all (fun p => stringScanOK p.2)

/-! ### Concrete fixtures for counterexamples and witnesses -/

def cAllMedium : UserConstraints :=
  { budget_sensitivity := .MEDIUM, expected_traffic := .MEDIUM
  , scalability_requirement := .MEDIUM, latency_sensitivity := .MEDIUM
  , operational_overhead_tolerance := .MEDIUM, time_to_market_urgency := .MEDIUM }

/-- budget=High, scalability=High, latency=High, others Low: triggers both
conflict rules 1 and 2 of the spec. -/
def cBudgetScalLatHigh : UserConstraints :=
  { budget_sensitivity := .HIGH, expected_traffic := .LOW
  , scalability_requirement := .HIGH, latency_sensitivity := .HIGH
  , operational_overhead_tolerance := .LOW, time_to_market_urgency := .LOW }

/-- An evaluation whose text declares a winner, used to drive the engine
neutrality check into its failure branch (possible only with an injected
evaluator, since the repository catalog is winner-free). -/
def winnerEvaluation : ServiceEvaluation :=
  { service_name := "best"
  , constraint_scores := []
  , strengths := []
  , limitations := []
  , best_use_cases := []
  }

/-- An injected evaluator whose output violates neutrality; the other
components are the real ones. -/
def neutralityViolatingComponents : Components :=
  { evaluate_services := fun _ =>
      .ok [("EC2", winnerEvaluation), ("Lambda", winnerEvaluation), ("ECS_Fargate", winnerEvaluation)]
  , validate_no_winner_declaration := validate_no_winner_declaration
  , analyze_trade_offs := analyze_trade_offs
  , generate_contextual_recommendations := generate_contextual_recommendations
  }

/-- An injected evaluator that raises, to exhibit the generic wrapping path. -/
def failingEvaluatorComponents : Components :=
  { evaluate_services := fun _ => .error (.valueError "boom")
  , validate_no_winner_declaration := validate_no_winner_declaration
  , analyze_trade_offs := analyze_trade_offs
  , generate_contextual_recommendations := generate_contextual_recommendations
  }

def neutralityWrappedError : PyErr :=
  .runtimeError "Comparison engine failed: Neutrality violation: A service was declared as winner"

def genericWrappedError : PyErr :=
  .runtimeError "Comparison engine failed: boom"

/-- Modelled from the amended claim C4: the conflict labels in the code order -
budget/latency, then budget/scalability, then time-to-market/ops, then
traffic/budget - each present exactly when its High/High condition on the
constraints holds. Written from the words of the amended claim, to be compared
with `identify_constraint_conflicts`, which is translated from the source. -/
def conflictsClaimOrder (c : UserConstraints) : List String :=
  (if c.budget_sensitivity = .HIGH ∧ c.latency_sensitivity = .HIGH then
    ["Budget sensitivity vs Latency sensitivity"] else []) ++
  (if c.budget_sensitivity = .HIGH ∧ c.scalability_requirement = .HIGH then
    ["Budget sensitivity vs Scalability requirement"] else []) ++
  (if c.time_to_market_urgency = .HIGH ∧ c.operational_overhead_tolerance = .HIGH then
    ["Time-to-market urgency vs Operational overhead tolerance"] else []) ++
  (if c.expected_traffic = .HIGH ∧ c.budget_sensitivity = .HIGH then
    ["Expected traffic vs Budget sensitivity"] else [])

/-! ### List and string lemmas for the forbidden-term scan -/

theorem sdata_app (a b : String) : (a ++ b).data = a.data ++ b.data := rfl

theorem lowerL_append (a b : String) : lowerL (a ++ b) = lowerL a ++ lowerL b := by
  simp [lowerL, sdata_app]

theorem joinSp_cons2 (x y : String) (r : List String) :
    joinSp (x :: y :: r) = x ++ " " ++ joinSp (y :: r) := rfl

theorem lowerL_joinSp_cons (x y : String) (r : List String) :
    lowerL (joinSp (x :: y :: r)) = lowerL x ++ ' ' :: lowerL (joinSp (y :: r)) := by
  rw [joinSp_cons2, lowerL_append, lowerL_append]
  rw [show lowerL " " = [' '] from by decide, List.append_assoc]
  rfl

theorem pre_inf {α : Type} {p l : List α} (h : p <+: l) : p <:+: l := by
  obtain ⟨t, ht⟩ := h
  exact ⟨[], t, by simpa using ht⟩

theorem inf_cons {α : Type} {p l : List α} {a : α} (h : p <:+: l) : p <:+: a :: l := by
  obtain ⟨s, t, hst⟩ := h
  exact ⟨a :: s, t, by simp [hst]⟩

theorem inf_app_left {α : Type} {p l : List α} (pre : List α) (h : p <:+: l) :
    p <:+: pre ++ l := by
  obtain ⟨s, t, hst⟩ := h
  refine ⟨pre ++ s, t, ?_⟩
  simp only [List.append_assoc] at hst ⊢
  rw [hst]

theorem inf_nil {α : Type} {p : List α} (h : p <:+: []) : p = [] := by
  obtain ⟨s, t, hst⟩ := h
  simp [List.append_eq_nil] at hst
  exact hst.2.1

theorem pre_split {α : Type} {c : α} (p : List α) (hc : c ∉ p) :
    ∀ xs ys : List α, p <+: xs ++ c :: ys → p <+: xs := by
  induction p with
  | nil => intro xs ys _; exact ⟨xs, rfl⟩
  | cons a p' ih =>
    intro xs ys h
    cases xs with
    | nil =>
      obtain ⟨t, ht⟩ := h
      rw [List.nil_append, List.cons_append] at ht
      injection ht with h1 _
      exact absurd (h1 ▸ List.mem_cons_self a p') hc
    | cons x xs' =>
      obtain ⟨t, ht⟩ := h
      rw [List.cons_append, List.cons_append] at ht
      injection ht with h1 h2
      have hp' : p' <+: xs' :=
        ih (fun hm => hc (List.mem_cons_of_mem a hm)) xs' ys ⟨t, h2⟩
      obtain ⟨u, hu⟩ := hp'
      exact ⟨u, by rw [List.cons_append, hu, h1]⟩

theorem inf_split {α : Type} {c : α} {p : List α} (hc : c ∉ p) :
    ∀ xs ys : List α, p <:+: xs ++ c :: ys → p <:+: xs ∨ p <:+: ys := by
  intro xs
  induction xs with
  | nil =>
    rintro ys ⟨s, t, hst⟩
    cases s with
    | nil =>
      cases p with
      | nil => exact Or.inl ⟨[], [], rfl⟩
      | cons a p' =>
        rw [List.nil_append, List.nil_append, List.cons_append] at hst
        injection hst with h1 _
        exact absurd (h1 ▸ List.mem_cons_self a p') hc
    | cons s0 s' =>
      right
      rw [List.nil_append, List.cons_append, List.cons_append] at hst
      injection hst with _ h2
      exact ⟨s', t, h2⟩
  | cons x xs' ih =>
    rintro ys ⟨s, t, hst⟩
    cases s with
    | nil =>
      rw [List.nil_append] at hst
      exact Or.inl (pre_inf (pre_split p hc (x :: xs') ys ⟨t, hst⟩))
    | cons s0 s' =>
      rw [List.cons_append, List.cons_append, List.cons_append] at hst
      injection hst with _ h2
      rcases ih ys ⟨s', t, h2⟩ with h | h
      · exact Or.inl (inf_cons h)
      · exact Or.inr h

theorem join_split {w : List Char} (hw : w ≠ []) (hsp : ' ' ∉ w) :
    ∀ parts : List String, w <:+: lowerL (joinSp parts) → ∃ p ∈ parts, w <:+: lowerL p := by
  intro parts
  induction parts with
  | nil => intro h; exact absurd (inf_nil h) hw
  | cons x rest ih =>
    cases rest with
    | nil => intro h; exact ⟨x, List.mem_singleton_self x, h⟩
    | cons y r =>
      intro h
      rw [lowerL_joinSp_cons] at h
      rcases inf_split hsp (lowerL x) (lowerL (joinSp (y :: r))) h with h1 | h2
      · exact ⟨x, List.mem_cons_self x _, h1⟩
      · obtain ⟨p, hp, hpw⟩ := ih h2
        exact ⟨p, List.mem_cons_of_mem x hp, hpw⟩

theorem mem_join {p : String} : ∀ parts : List String, p ∈ parts →
    p.data <:+: (joinSp parts).data := by
  intro parts
  induction parts with
  | nil => intro h; exact absurd h (List.not_mem_nil p)
  | cons x rest ih =>
    intro h
    cases rest with
    | nil =>
      rw [List.mem_singleton] at h
      subst h
      exact ⟨[], [], by simp [joinSp]⟩
    | cons y r =>
      rcases List.mem_cons.mp h with h1 | h2
      · subst h1
        exact ⟨[], (" " ++ joinSp (y :: r)).data, by simp [joinSp_cons2, sdata_app]⟩
      · rw [joinSp_cons2, show (x ++ " " ++ joinSp (y :: r)).data =
          (x ++ " ").data ++ (joinSp (y :: r)).data from rfl]
        exact inf_app_left _ (ih h2)

/-! ### Cleanliness of the generated recommendation texts -/

theorem baseWords_wf : ∀ w ∈ baseWords, w.data ≠ [] ∧ ' ' ∉ w.data := by decide

theorem clean_parts_no_word {parts : List String} (h : parts.all cleanFrag = true)
    {w : String} (hw : w ∈ baseWords) : ¬ (w.data <:+: lowerL (joinSp parts)) := by
  intro hocc
  have hbw := baseWords_wf w hw
  obtain ⟨p, hp, hpw⟩ := join_split hbw.1 hbw.2 parts hocc
  have hcp : cleanFrag p = true := List.all_eq_true.mp h p hp
  rw [cleanFrag] at hcp
  have h2 := List.all_eq_true.mp hcp w hw
  rw [Bool.not_eq_true'] at h2
  rw [containsLower] at h2
  exact (of_decide_eq_false h2) hpw

theorem clean_join_scan {parts : List String} (h : parts.all cleanFrag = true)
    {t : String} (ht : ∃ w ∈ baseWords, w.data <:+: t.data) :
    containsLower (joinSp parts) t = false := by
  obtain ⟨w, hw, hsub⟩ := ht
  rw [containsLower]
  apply decide_eq_false
  intro hocc
  exact clean_parts_no_word h hw (hsub.trans hocc)

theorem claimTerms_proxy : ∀ t ∈ claimTerms, ∃ w ∈ baseWords, w.data <:+: t.data := by decide

theorem winner_phrases_proxy : ∀ t ∈ winner_phrases, ∃ w ∈ baseWords, w.data <:+: t.data := by
  decide

theorem ec2_budget_block_clean : ∀ lv, (ec2_budget_block lv).all cleanFrag = true := by decide

theorem ec2_latency_block_clean : ∀ lv, (ec2_latency_block lv).all cleanFrag = true := by decide

theorem ec2_ops_block_clean : ∀ lv, (ec2_ops_block lv).all cleanFrag = true := by decide

theorem ec2_time_block_clean : ∀ lv, (ec2_time_block lv).all cleanFrag = true := by decide

theorem ec2_traffic_block_clean : ∀ lv, (ec2_traffic_block lv).all cleanFrag = true := by decide

theorem ec2_closing_clean : cleanFrag ec2_closing = true := by decide

theorem ec2Parts_clean (c : UserConstraints) : (ec2Parts c).all cleanFrag = true := by
  simp [ec2Parts, List.all_append, ec2_budget_block_clean, ec2_latency_block_clean,
    ec2_ops_block_clean, ec2_time_block_clean, ec2_traffic_block_clean, ec2_closing_clean]

theorem lambda_ops_block_clean : ∀ lv, (lambda_ops_block lv).all cleanFrag = true := by decide

theorem lambda_time_block_clean : ∀ lv, (lambda_time_block lv).all cleanFrag = true := by decide

theorem lambda_traffic_block_clean : ∀ lv, (lambda_traffic_block lv).all cleanFrag = true := by
  decide

theorem lambda_latency_block_clean : ∀ lv, (lambda_latency_block lv).all cleanFrag = true := by
  decide

theorem lambda_budget_block_clean :
    ∀ b t, (lambda_budget_block b t).all cleanFrag = true := by decide

theorem lambda_closing_clean : cleanFrag lambda_closing = true := by decide

theorem lambdaParts_clean (c : UserConstraints) : (lambdaParts c).all cleanFrag = true := by
  simp [lambdaParts, List.all_append, lambda_ops_block_clean, lambda_time_block_clean,
    lambda_traffic_block_clean, lambda_latency_block_clean, lambda_budget_block_clean,
    lambda_closing_clean]

theorem fargate_scalability_block_clean :
    ∀ lv, (fargate_scalability_block lv).all cleanFrag = true := by decide

theorem fargate_ops_time_block_clean :
    ∀ o t, (fargate_ops_time_block o t).all cleanFrag = true := by decide

theorem fargate_budget_block_clean :
    ∀ lv, (fargate_budget_block lv).all cleanFrag = true := by decide

theorem fargate_ops_block_clean : ∀ lv, (fargate_ops_block lv).all cleanFrag = true := by decide

theorem fargate_ends_clean :
    cleanFrag fargate_opening = true ∧ cleanFrag fargate_closing = true := by decide

theorem fargateParts_clean (c : UserConstraints) : (fargateParts c).all cleanFrag = true := by
  simp [fargateParts, List.all_append, fargate_scalability_block_clean,
    fargate_ops_time_block_clean, fargate_budget_block_clean, fargate_ops_block_clean,
    fargate_ends_clean.1, fargate_ends_clean.2]

/-! ### Closed-form evaluation of the real pipeline -/

theorem get_all_scores_ec2 (c : UserConstraints) :
    get_all_scores "EC2" c = .ok (ec2Scores c) := by
  rcases c with ⟨b, t, s, l, o, m⟩
  cases b <;> cases t <;> cases s <;> cases l <;> cases o <;> cases m <;> rfl

theorem get_all_scores_lambda (c : UserConstraints) :
    get_all_scores "Lambda" c = .ok (lambdaScores c) := by
  rcases c with ⟨b, t, s, l, o, m⟩
  cases b <;> cases t <;> cases s <;> cases l <;> cases o <;> cases m <;> rfl

theorem get_all_scores_fargate (c : UserConstraints) :
    get_all_scores "ECS_Fargate" c = .ok (fargateScores c) := by
  rcases c with ⟨b, t, s, l, o, m⟩
  cases b <;> cases t <;> cases s <;> cases l <;> cases o <;> cases m <;> rfl

theorem get_chars_ec2 : get_service_characteristics "EC2" = .ok ec2_characteristics := rfl

theorem get_chars_lambda :
    get_service_characteristics "Lambda" = .ok lambda_characteristics := rfl

theorem get_chars_fargate :
    get_service_characteristics "ECS_Fargate" = .ok fargate_characteristics := rfl

theorem evaluate_single_ec2 (c : UserConstraints) :
    evaluate_single_service "EC2" c = .ok (ec2Evaluation c) := by
  rw [evaluate_single_service, get_chars_ec2, get_all_scores_ec2]
  rfl

theorem evaluate_single_lambda (c : UserConstraints) :
    evaluate_single_service "Lambda" c = .ok (lambdaEvaluation c) := by
  rw [evaluate_single_service, get_chars_lambda, get_all_scores_lambda]
  rfl

theorem evaluate_single_fargate (c : UserConstraints) :
    evaluate_single_service "ECS_Fargate" c = .ok (fargateEvaluation c) := by
  rw [evaluate_single_service, get_chars_fargate, get_all_scores_fargate]
  rfl

theorem evaluate_services_eq (c : UserConstraints) :
    evaluate_services c = .ok (evalsList c) := by
  rw [evaluate_services, show get_all_services = ["EC2", "Lambda", "ECS_Fargate"] from rfl]
  rw [evalLoop, evaluate_single_ec2]
  rw [evalLoop, evaluate_single_lambda]
  rw [evalLoop, evaluate_single_fargate]
  rfl

theorem cleanFrag_joinSp {parts : List String} (h : parts.all cleanFrag = true) :
    cleanFrag (joinSp parts) = true := by
  rw [cleanFrag, List.all_eq_true]
  intro w hw
  rw [Bool.not_eq_true', containsLower]
  exact decide_eq_false (clean_parts_no_word h hw)

theorem winner_words_proxy : ∀ w ∈ winner_words, ∃ b ∈ baseWords, b.data <:+: w.data := by
  decide

theorem evalAllText_scan {e : ServiceEvaluation}
    (h1 : cleanFrag e.service_name = true) (h2 : e.strengths.all cleanFrag = true)
    (h3 : e.limitations.all cleanFrag = true) (h4 : e.best_use_cases.all cleanFrag = true) :
    winner_words.all (fun w => !(containsLower (evalAllText e) w)) = true := by
  rw [List.all_eq_true]
  intro w hw
  rw [Bool.not_eq_true']
  rw [evalAllText]
  have hparts : [e.service_name, joinSp e.strengths, joinSp e.limitations,
      joinSp e.best_use_cases].all cleanFrag = true := by
    simp [List.all_cons, h1, cleanFrag_joinSp h2, cleanFrag_joinSp h3, cleanFrag_joinSp h4]
  exact clean_join_scan hparts (winner_words_proxy w hw)

theorem catalog_frags_clean :
    cleanFrag "AWS EC2" = true ∧ cleanFrag "AWS Lambda" = true ∧
    cleanFrag "AWS ECS Fargate" = true ∧
    ec2_strengths.all cleanFrag = true ∧ ec2_limitations.all cleanFrag = true ∧
    ec2_best_use_cases.all cleanFrag = true ∧
    lambda_strengths.all cleanFrag = true ∧ lambda_limitations.all cleanFrag = true ∧
    lambda_best_use_cases.all cleanFrag = true ∧
    fargate_strengths.all cleanFrag = true ∧ fargate_limitations.all cleanFrag = true ∧
    fargate_best_use_cases.all cleanFrag = true := by decide

theorem validate_evalsList (c : UserConstraints) :
    validate_no_winner_declaration (evalsList c) = true := by
  rw [validate_no_winner_declaration, List.all_eq_true]
  intro p hp
  rw [evalsList] at hp
  obtain ⟨d1, d2, d3, d4, d5, d6, d7, d8, d9, d10, d11, d12⟩ := catalog_frags_clean
  rcases List.mem_cons.mp hp with h | hp
  · subst h
    exact evalAllText_scan d1 d4 d5 d6
  rcases List.mem_cons.mp hp with h | hp
  · subst h
    exact evalAllText_scan d2 d7 d8 d9
  rcases List.mem_cons.mp hp with h | hp
  · subst h
    exact evalAllText_scan d3 d10 d11 d12
  exact absurd hp (List.not_mem_nil p)

theorem recs_eq (c : UserConstraints) :
    generate_contextual_recommendations (evalsList c) c =
      [ ("EC2", joinSp (ec2Parts c))
      , ("Lambda", joinSp (lambdaParts c))
      , ("ECS_Fargate", joinSp (fargateParts c)) ] := rfl

theorem ec2_rec_scan (c : UserConstraints) :
    winner_phrases.find? (fun phrase => containsLower (joinSp (ec2Parts c)) phrase) = none := by
  rw [List.find?_eq_none]
  intro ph hph
  rw [clean_join_scan (ec2Parts_clean c) (winner_phrases_proxy ph hph)]
  simp

theorem lambda_rec_scan (c : UserConstraints) :
    winner_phrases.find? (fun phrase => containsLower (joinSp (lambdaParts c)) phrase) = none := by
  rw [List.find?_eq_none]
  intro ph hph
  rw [clean_join_scan (lambdaParts_clean c) (winner_phrases_proxy ph hph)]
  simp

theorem fargate_rec_scan (c : UserConstraints) :
    winner_phrases.find? (fun phrase => containsLower (joinSp (fargateParts c)) phrase) = none := by
  rw [List.find?_eq_none]
  intro ph hph
  rw [clean_join_scan (fargateParts_clean c) (winner_phrases_proxy ph hph)]
  simp

theorem findWinner_none (c : UserConstraints) :
    findWinnerPhrase (generate_contextual_recommendations (evalsList c) c) = none := by
  rw [recs_eq]
  rw [findWinnerPhrase, ec2_rec_scan]
  rw [findWinnerPhrase, lambda_rec_scan]
  rw [findWinnerPhrase, fargate_rec_scan]
  rfl

theorem validate_neutrality_ok (c : UserConstraints) :
    _validate_neutrality validate_no_winner_declaration (resultModel c) = .ok () := by
  rw [_validate_neutrality]
  rw [show (resultModel c).evaluations = evalsList c from rfl]
  rw [validate_evalsList]
  rw [show (resultModel c).contextual_recommendations =
    generate_contextual_recommendations (evalsList c) c from rfl]
  rw [findWinner_none]
  rw [show (evalsList c).length = 3 from rfl, recs_eq]
  simp

theorem compare_inner_eq (c : UserConstraints) :
    compare_inner realComponents c = .ok (resultModel c) := by
  rw [compare_inner]
  rw [show realComponents.evaluate_services = evaluate_services from rfl, evaluate_services_eq]
  dsimp only
  rw [show realComponents.analyze_trade_offs = analyze_trade_offs from rfl]
  rw [show realComponents.generate_contextual_recommendations =
    generate_contextual_recommendations from rfl]
  rw [show realComponents.validate_no_winner_declaration =
    validate_no_winner_declaration from rfl]
  rw [show (⟨evalsList c, analyze_trade_offs (evalsList c) c,
    generate_contextual_recommendations (evalsList c) c,
    _identify_edge_case_warnings c (evalsList c)⟩ : ComparisonResult) = resultModel c from rfl]
  rw [validate_neutrality_ok]

theorem compare_real_eq (c : UserConstraints) :
    compare_services realComponents c = .ok (resultModel c) := by
  rw [compare_services, compare_inner_eq]

/-! ### Remaining helper lemmas -/

theorem stringScanOK_of_clean {parts : List String} (h : parts.all cleanFrag = true) :
    stringScanOK (joinSp parts) = true := by
  rw [stringScanOK, List.all_eq_true]
  intro t ht
  rw [Bool.not_eq_true']
  exact clean_join_scan h (claimTerms_proxy t ht)

theorem scoresOK : ∀ c : UserConstraints,
    (evalsList c).all (fun p => p.2.constraint_scores.length == 6 &&
      p.2.constraint_scores.all (fun q => decide (1 ≤ q.2) && decide (q.2 ≤ 5))) = true := by
  decide

theorem generate_cons (key : String) (ev : ServiceEvaluation)
    (tl : List (String × ServiceEvaluation)) (c : UserConstraints) :
    generate_contextual_recommendations ((key, ev) :: tl) c =
      (if key = "EC2" then [(key, _generate_ec2_recommendation ev c)]
       else if key = "Lambda" then [(key, _generate_lambda_recommendation ev c)]
       else if key = "ECS_Fargate" then [(key, _generate_fargate_recommendation ev c)]
       else []) ++ generate_contextual_recommendations tl c := by
  by_cases h1 : key = "EC2"
  · subst h1; simp [generate_contextual_recommendations]
  · by_cases h2 : key = "Lambda"
    · subst h2; simp [generate_contextual_recommendations]
    · by_cases h3 : key = "ECS_Fargate"
      · subst h3; simp [generate_contextual_recommendations]
      · simp [generate_contextual_recommendations, h1, h2, h3]

theorem lookupA_none_of_all_keys {α : Type} {l : List (String × α)} {k : String}
    (h : l.all (fun p => p.1 == "EC2" || p.1 == "Lambda" || p.1 == "ECS_Fargate") = true)
    (hk : k ∉ ["EC2", "Lambda", "ECS_Fargate"]) : lookupA l k = none := by
  induction l with
  | nil => rfl
  | cons hd tl ih =>
    obtain ⟨k0, v⟩ := hd
    rw [List.all_cons, Bool.and_eq_true] at h
    have hne : ¬ (k = k0) := by
      intro he
      subst he
      simp only [List.mem_cons, List.not_mem_nil, or_false, not_or] at hk
      simp only [Bool.or_eq_true, beq_iff_eq] at h
      rcases h.1 with (h' | h') | h'
      · exact hk.1 h'
      · exact hk.2.1 h'
      · exact hk.2.2 h'
    rw [lookupA, if_neg hne]
    exact ih h.2

/-! ### The claims -/

/-- Claim C1: for every valid UserConstraints value, compare_services succeeds
and its ComparisonResult contains no forbidden winner term ("best choice",
"best", "winner", "optimal", "perfect", "perfect solution", "ideal choice"),
scanned case-insensitively, in the text of any evaluation (service name, strengths,
limitations, best use cases) or in any of the three recommendation strings. -/
theorem claim_c1_no_winner_terms : ∀ c : UserConstraints, ∃ r : ComparisonResult,
    compare_services realComponents c = .ok r ∧ resultScanOK r = true := by
  intro c
  refine ⟨resultModel c, compare_real_eq c, ?_⟩
  rw [resultScanOK, Bool.and_eq_true]
  constructor
  · rfl
  · rw [show (resultModel c).contextual_recommendations =
      generate_contextual_recommendations (evalsList c) c from rfl, recs_eq]
    simp [stringScanOK_of_clean (ec2Parts_clean c),
      stringScanOK_of_clean (lambdaParts_clean c),
      stringScanOK_of_clean (fargateParts_clean c)]

/-- Claim C2: for every valid UserConstraints value, compare_services returns a
result with exactly the three evaluations keyed EC2, Lambda, ECS_Fargate (in
that order), exactly 3 recommendation strings, and for every evaluation the
constraint_scores has exactly 6 entries, each an integer in [1,5]. -/
theorem claim_c2_completeness : ∀ c : UserConstraints, ∃ r : ComparisonResult,
    compare_services realComponents c = .ok r ∧
    r.evaluations.map Prod.fst = ["EC2", "Lambda", "ECS_Fargate"] ∧
    r.contextual_recommendations.length = 3 ∧
    r.evaluations.all (fun p => p.2.constraint_scores.length == 6 &&
      p.2.constraint_scores.all (fun q => decide (1 ≤ q.2) && decide (q.2 ≤ 5))) = true := by
  intro c
  refine ⟨resultModel c, compare_real_eq c, rfl, ?_, scoresOK c⟩
  rw [show (resultModel c).contextual_recommendations =
    generate_contextual_recommendations (evalsList c) c from rfl, recs_eq]
  rfl

/-- Claim C3 counterexample: an out-of-set constraint value makes the scorer
fail with a ValueError, which is not a LookupError in the Python exception
hierarchy — refuting the claim that invalid keys fail with LookupError. -/
theorem claim_c3_counterexample :
    score_service_against_constraint "EC2" "latency_sensitivity" "Extreme" =
      .error (.valueError "Unknown constraint value: Extreme") ∧
    PyErr.isLookupError (.valueError "Unknown constraint value: Extreme") = false :=
  ⟨rfl, rfl⟩

/-- Claim C3 (amended): for arguments inside the fixed closed sets the scorer
returns an integer in [1,5]; whenever any argument lies outside its closed set
the call fails with a ValueError (not a LookupError). -/
theorem claim_c3_amended :
    (∀ s ∈ ["EC2", "Lambda", "ECS_Fargate"],
      ∀ d ∈ ["budget_sensitivity", "expected_traffic", "scalability_requirement",
             "latency_sensitivity", "operational_overhead_tolerance", "time_to_market_urgency"],
      ∀ l ∈ ["Low", "Medium", "High"],
        ∃ n, score_service_against_constraint s d l = .ok n ∧ 1 ≤ n ∧ n ≤ 5) ∧
    (∀ s d l : String,
      s ∉ ["EC2", "Lambda", "ECS_Fargate"] ∨
      d ∉ ["budget_sensitivity", "expected_traffic", "scalability_requirement",
           "latency_sensitivity", "operational_overhead_tolerance", "time_to_market_urgency"] ∨
      l ∉ ["Low", "Medium", "High"] →
        ∃ m, score_service_against_constraint s d l = .error (.valueError m)) := by
  constructor
  · intro s hs d hd l hl
    fin_cases hs <;> fin_cases hd <;> fin_cases hl <;> exact ⟨_, rfl, by norm_num⟩
  · intro s d l h
    by_cases hd : d ∈ ["budget_sensitivity", "expected_traffic", "scalability_requirement",
        "latency_sensitivity", "operational_overhead_tolerance", "time_to_market_urgency"]
    · by_cases hl : l ∈ ["Low", "Medium", "High"]
      · have hs : s ∉ ["EC2", "Lambda", "ECS_Fargate"] := by
          rcases h with h | h | h
          · exact h
          · exact absurd hd h
          · exact absurd hl h
        simp only [List.mem_cons, List.not_mem_nil, or_false, not_or] at hs
        fin_cases hd <;> fin_cases hl <;>
          · simp [score_service_against_constraint, scoring_rules, lookupA,
              hs.1, hs.2.1, hs.2.2]
      · simp only [List.mem_cons, List.not_mem_nil, or_false, not_or] at hl
        fin_cases hd <;>
          · simp [score_service_against_constraint, scoring_rules, lookupA,
              hl.1, hl.2.1, hl.2.2]
    · simp only [List.mem_cons, List.not_mem_nil, or_false, not_or] at hd
      simp [score_service_against_constraint, scoring_rules, lookupA, hd.1, hd.2.1,
        hd.2.2.1, hd.2.2.2.1, hd.2.2.2.2.1, hd.2.2.2.2.2]

/-- Witness for C3 (amended): both parts instantiated at concrete arguments. -/
theorem claim_c3_amended_witness :
    (∃ n, score_service_against_constraint "EC2" "budget_sensitivity" "Low" = .ok n ∧
      1 ≤ n ∧ n ≤ 5) ∧
    (∃ m, score_service_against_constraint "EC2" "bogus_dimension" "Low" =
      .error (.valueError m)) :=
  ⟨claim_c3_amended.1 "EC2" (by decide) "budget_sensitivity" (by decide) "Low" (by decide),
   claim_c3_amended.2 "EC2" "bogus_dimension" "Low" (Or.inr (Or.inl (by decide)))⟩

/-- Claim C4 counterexample: with budget, scalability and latency all High (the
other dimensions Low), the conflict list places "Budget sensitivity vs Latency
sensitivity" before "Budget sensitivity vs Scalability requirement" — the
reverse of the order the claim asserts. -/
theorem claim_c4_counterexample :
    identify_constraint_conflicts cBudgetScalLatHigh =
      ["Budget sensitivity vs Latency sensitivity",
       "Budget sensitivity vs Scalability requirement"] ∧
    identify_constraint_conflicts cBudgetScalLatHigh ≠
      ["Budget sensitivity vs Scalability requirement",
       "Budget sensitivity vs Latency sensitivity"] := by
  constructor
  · rfl
  · decide

/-- Claim C4 (amended): the conflict list is deterministic, each label present
exactly when its High/High condition holds, and the full order follows the
code: "Budget sensitivity vs Latency sensitivity" first, then "Budget
sensitivity vs Scalability requirement", then "Time-to-market urgency vs
Operational overhead tolerance", then "Expected traffic vs Budget
sensitivity" - the whole list equals the four conditional labels concatenated
in exactly that order. -/
theorem claim_c4_amended : ∀ c : UserConstraints,
    identify_constraint_conflicts c = conflictsClaimOrder c ∧
    (("Budget sensitivity vs Latency sensitivity" ∈ identify_constraint_conflicts c) ↔
      (c.budget_sensitivity = .HIGH ∧ c.latency_sensitivity = .HIGH)) ∧
    (("Budget sensitivity vs Scalability requirement" ∈ identify_constraint_conflicts c) ↔
      (c.budget_sensitivity = .HIGH ∧ c.scalability_requirement = .HIGH)) ∧
    (("Time-to-market urgency vs Operational overhead tolerance" ∈
        identify_constraint_conflicts c) ↔
      (c.time_to_market_urgency = .HIGH ∧ c.operational_overhead_tolerance = .HIGH)) ∧
    (("Expected traffic vs Budget sensitivity" ∈ identify_constraint_conflicts c) ↔
      (c.expected_traffic = .HIGH ∧ c.budget_sensitivity = .HIGH)) := by
  decide

/-- Claim C5 counterexample: a neutrality-check failure (driven by an injected
evaluator returning winner language, with the real validator) surfaces to the
caller wrapped as the generic RuntimeError "Comparison engine failed: ...",
the very same error kind produced when another stage raises — so it is not a
distinguishable "neutrality violation" error kind. -/
theorem claim_c5_counterexample :
    compare_services neutralityViolatingComponents cAllMedium =
      .error neutralityWrappedError ∧
    compare_services failingEvaluatorComponents cAllMedium = .error genericWrappedError ∧
    neutralityWrappedError.kind = genericWrappedError.kind :=
  ⟨rfl, rfl, rfl⟩

/-- Claim C5 (amended): every failure of compare_services, the neutrality
post-condition failure included, reaches the caller as the single generic
RuntimeError kind with message prefix "Comparison engine failed: "; the
neutrality cause is distinguishable only through the message text, not as a
separate error kind. -/
theorem claim_c5_amended : ∀ (comps : Components) (c : UserConstraints) (e : PyErr),
    compare_services comps c = .error e →
    ∃ m : String, e = .runtimeError ("Comparison engine failed: " ++ m) := by
  intro comps c e h
  rw [compare_services] at h
  cases hinner : compare_inner comps c with
  | error e' =>
    rw [hinner] at h
    injection h with h1
    exact ⟨e'.msg, h1.symm⟩
  | ok r =>
    rw [hinner] at h
    exact absurd h (by simp)

/-- Witness for C5 (amended): applied to the concrete neutrality failure. -/
theorem claim_c5_amended_witness :
    compare_services neutralityViolatingComponents cAllMedium =
      .error neutralityWrappedError ∧
    ∃ m : String, neutralityWrappedError =
      .runtimeError ("Comparison engine failed: " ++ m) :=
  ⟨rfl, claim_c5_amended neutralityViolatingComponents cAllMedium neutralityWrappedError rfl⟩

/-- Claim C6: for every valid UserConstraints value and every fixed service
identifier, evaluate_single_service returns exactly the value stored under
that key in the map returned by evaluate_services. -/
theorem claim_c6_single_matches_batch : ∀ (c : UserConstraints) (s : String),
    s ∈ get_all_services →
    ∃ (ev : ServiceEvaluation) (evals : List (String × ServiceEvaluation)),
      evaluate_single_service s c = .ok ev ∧ evaluate_services c = .ok evals ∧
      lookupA evals s = some ev := by
  intro c s hs
  rw [show get_all_services = ["EC2", "Lambda", "ECS_Fargate"] from rfl] at hs
  rcases List.mem_cons.mp hs with h | hs
  · subst h
    exact ⟨ec2Evaluation c, evalsList c, evaluate_single_ec2 c, evaluate_services_eq c, rfl⟩
  rcases List.mem_cons.mp hs with h | hs
  · subst h
    exact ⟨lambdaEvaluation c, evalsList c, evaluate_single_lambda c,
      evaluate_services_eq c, rfl⟩
  rcases List.mem_cons.mp hs with h | hs
  · subst h
    exact ⟨fargateEvaluation c, evalsList c, evaluate_single_fargate c,
      evaluate_services_eq c, rfl⟩
  exact absurd hs (List.not_mem_nil s)

/-- Witness for C6: applied at the Lambda service and the all-Medium input. -/
theorem claim_c6_witness :
    ("Lambda" ∈ get_all_services) ∧
    ∃ (ev : ServiceEvaluation) (evals : List (String × ServiceEvaluation)),
      evaluate_single_service "Lambda" cAllMedium = .ok ev ∧
      evaluate_services cAllMedium = .ok evals ∧ lookupA evals "Lambda" = some ev :=
  ⟨by decide, claim_c6_single_matches_batch cAllMedium "Lambda" (by decide)⟩

/-- Claim C7: the trade-off analyzer is a pure function of the constraints with
no dependency on the evaluations (in particular on any constraint scores): any
two evaluations maps yield equal TradeOffAnalysis values. -/
theorem claim_c7_analyzer_ignores_evaluations :
    ∀ (e1 e2 : List (String × ServiceEvaluation)) (c : UserConstraints),
      analyze_trade_offs e1 c = analyze_trade_offs e2 c := by
  intro e1 e2 c
  rfl

/-- Claim C8: every recommendation produced by
generate_contextual_recommendations for the pipeline's evaluations is non-empty
and contains (with exact casing) at least one of the three canonical phrases. -/
theorem claim_c8_phrase_inclusion : ∀ (c : UserConstraints) (p : String × String),
    p ∈ generate_contextual_recommendations (evalsList c) c →
    p.2 ≠ "" ∧
    (("This is a good choice when").data <:+: p.2.data ∨
     ("This may be a limitation if").data <:+: p.2.data ∨
     ("The trade-off here is").data <:+: p.2.data) := by
  intro c p hp
  rw [recs_eq] at hp
  rcases List.mem_cons.mp hp with h | hp
  · subst h
    have hcl : ec2_closing ∈ ec2Parts c := by simp [ec2Parts]
    have hinf := mem_join (ec2Parts c) hcl
    constructor
    · intro h0
      have h0x : joinSp (ec2Parts c) = "" := h0
      rw [h0x] at hinf
      exact absurd (inf_nil hinf) (by decide)
    · exact Or.inr (Or.inr
        ((show ("The trade-off here is").data <:+: ec2_closing.data by decide).trans hinf))
  rcases List.mem_cons.mp hp with h | hp
  · subst h
    have hcl : lambda_closing ∈ lambdaParts c := by simp [lambdaParts]
    have hinf := mem_join (lambdaParts c) hcl
    constructor
    · intro h0
      have h0x : joinSp (lambdaParts c) = "" := h0
      rw [h0x] at hinf
      exact absurd (inf_nil hinf) (by decide)
    · exact Or.inr (Or.inr
        ((show ("The trade-off here is").data <:+: lambda_closing.data by decide).trans hinf))
  rcases List.mem_cons.mp hp with h | hp
  · subst h
    have hcl : fargate_closing ∈ fargateParts c := by simp [fargateParts]
    have hinf := mem_join (fargateParts c) hcl
    constructor
    · intro h0
      have h0x : joinSp (fargateParts c) = "" := h0
      rw [h0x] at hinf
      exact absurd (inf_nil hinf) (by decide)
    · exact Or.inr (Or.inr
        ((show ("The trade-off here is").data <:+: fargate_closing.data by decide).trans hinf))
  exact absurd hp (List.not_mem_nil p)

/-- Witness for C8: the EC2 recommendation at the all-Medium input. -/
theorem claim_c8_witness :
    (("EC2", joinSp (ec2Parts cAllMedium)) ∈
      generate_contextual_recommendations (evalsList cAllMedium) cAllMedium) ∧
    joinSp (ec2Parts cAllMedium) ≠ "" ∧
    (("This is a good choice when").data <:+: (joinSp (ec2Parts cAllMedium)).data ∨
     ("This may be a limitation if").data <:+: (joinSp (ec2Parts cAllMedium)).data ∨
     ("The trade-off here is").data <:+: (joinSp (ec2Parts cAllMedium)).data) :=
  ⟨by rw [recs_eq]; exact List.mem_cons_self _ _,
   claim_c8_phrase_inclusion cAllMedium ("EC2", joinSp (ec2Parts cAllMedium))
     (by rw [recs_eq]; exact List.mem_cons_self _ _)⟩

/-- Claim C9: the fixed scoring table entries for latency_sensitivity at High:
5 for EC2, 1 for Lambda, 3 for ECS_Fargate. -/
theorem claim_c9_latency_high_scores :
    score_service_against_constraint "EC2" "latency_sensitivity" "High" = .ok 5 ∧
    score_service_against_constraint "Lambda" "latency_sensitivity" "High" = .ok 1 ∧
    score_service_against_constraint "ECS_Fargate" "latency_sensitivity" "High" = .ok 3 :=
  ⟨rfl, rfl, rfl⟩

/-- Claim C10: generate_contextual_recommendations produces entries only for
the three fixed service identifiers; any other key in the evaluations map is
silently omitted (the function is total, no error), so a lookup of such a key
in the returned map yields nothing. -/
theorem claim_c10_unknown_keys_omitted :
    ∀ (evals : List (String × ServiceEvaluation)) (c : UserConstraints),
    ((generate_contextual_recommendations evals c).all
      (fun p => p.1 == "EC2" || p.1 == "Lambda" || p.1 == "ECS_Fargate") = true) ∧
    (∀ k : String, k ∉ ["EC2", "Lambda", "ECS_Fargate"] →
      lookupA (generate_contextual_recommendations evals c) k = none) := by
  intro evals c
  have hall : (generate_contextual_recommendations evals c).all
      (fun p => p.1 == "EC2" || p.1 == "Lambda" || p.1 == "ECS_Fargate") = true := by
    induction evals with
    | nil => rfl
    | cons hd tl ih =>
      obtain ⟨key, ev⟩ := hd
      rw [generate_cons, List.all_append, Bool.and_eq_true]
      refine ⟨?_, ih⟩
      by_cases h1 : key = "EC2"
      · subst h1; rfl
      · by_cases h2 : key = "Lambda"
        · subst h2; simp
        · by_cases h3 : key = "ECS_Fargate"
          · subst h3; simp
          · simp [h1, h2, h3]
  exact ⟨hall, fun k hk => lookupA_none_of_all_keys hall hk⟩

/-- Witness for C10: an evaluations map keyed "Foo" yields no "Foo" entry. -/
theorem claim_c10_witness :
    ("Foo" ∉ ["EC2", "Lambda", "ECS_Fargate"]) ∧
    lookupA (generate_contextual_recommendations
      [("Foo", (⟨"x", [], [], [], []⟩ : ServiceEvaluation))] cAllMedium) "Foo" = none :=
  ⟨by decide,
   (claim_c10_unknown_keys_omitted [("Foo", ⟨"x", [], [], [], []⟩)] cAllMedium).2 "Foo"
     (by decide)⟩
